import Mathlib

/-!
Shallow embedding of the membership-and-consensus core of a sharded
peer-to-peer routing node: quorum-based event accumulation, the elder
transition driven by accumulated events, the bootstrap/join state machine
(`src/node/stage/bootstrapping.rs`), network configuration
(`src/chain/config.rs`), the genesis snapshot (`src/chain/mod.rs`) and the
`GetGroupKey` message encoding (`src/messages/get_group_key.rs`).

Machine integers are modelled as `Nat` (no overflow is reachable in the
modelled operations), fallible operations return `Except`, and side effects
of the bootstrap stage are made explicit as a list of `Effect` values.
-/

namespace SnRouting

/-- Node identifiers: a `XorName` is a fixed-width bit string, modelled as a
list of bits (most significant first). Only prefix comparisons on the
high-order bits are used by the embedded code. -/
def XorName : Type := List Bool

instance : DecidableEq XorName := by
  unfold XorName
  infer_instance

/-- Bit `i` of a name (`false` beyond the represented width). -/
def bitAt (nm : XorName) (i : Nat) : Bool := nm.getD i false

/-- A name prefix: a bit count plus a name; it matches all identifiers that
agree with `name` on the first `bit_count` high-order bits (the `Prefix`
type of the `xor_name` dependency, at the interface the spec gives it). -/
structure Pfx where
  bit_count : Nat
  name : XorName
deriving DecidableEq

/-- Prefix membership: the candidate name agrees with the prefix name on
every bit below `bit_count`. -/
def Pfx.matches (p : Pfx) (nm : XorName) : Bool :=
  (List.range p.bit_count).all fun i => bitAt nm i == bitAt p.name i

/-- Modelled from the spec: `quorum_count` (exported by `src/chain/mod.rs`
from the `elders_info` module, whose body is not part of the excerpt) is the
quorum policy "smallest integer strictly greater than `2n/3`" for an
elder-set size `n`. -/
def quorum_count (n : Nat) : Nat := 2 * n / 3 + 1

/-- Modelled from the spec: the event accumulator's state for one candidate
event — the set of voters whose support has been recorded (at most one vote
per voter), plus whether the event has already been delivered
(`try_accumulate` is idempotent after delivery). Voters are identified by
`Nat` ids. -/
structure EventAccumulator where
  proof : Finset Nat
  delivered : Bool
deriving DecidableEq

/-- Modelled from the spec: the empty accumulator (no votes, not yet
delivered). -/
def EventAccumulator.empty : EventAccumulator := ⟨∅, false⟩

/-- Modelled from the spec: `vote` records one voter's support; a second
vote from the same voter is ignored (set insertion), not counted twice. -/
def EventAccumulator.vote (acc : EventAccumulator) (voter : Nat) : EventAccumulator :=
  { acc with proof := insert voter acc.proof }

/-- Modelled from the spec: `try_accumulate` returns the proof the first
time quorum (for elder-set size `n`) is reached and is idempotent
afterwards: it returns nothing once already delivered. -/
def EventAccumulator.try_accumulate (n : Nat) (acc : EventAccumulator) :
    Option (Finset Nat) × EventAccumulator :=
  if !acc.delivered && decide (quorum_count n ≤ acc.proof.card) then
    (some acc.proof, { acc with delivered := true })
  else
    (none, acc)

/-- Fold a list of voters into an accumulator, casting one vote each. -/
def voteAll (voters : List Nat) (acc : EventAccumulator) : EventAccumulator :=
  voters.foldl EventAccumulator.vote acc

/-- Accumulator holding votes of the four distinct voters 1, 2, 3, 4. -/
def accFour : EventAccumulator := voteAll [1, 2, 3, 4] EventAccumulator.empty

/-- `accFour` plus a fifth distinct vote. -/
def accFive : EventAccumulator := accFour.vote 5

/-- An elder-set snapshot: the elder membership of one section at one
version (`EldersInfo`). Peers are identified by `Nat` ids; the peer
descriptors carry no further protocol-relevant data in the modelled
operations, so the member map is modelled by its key set. -/
structure EldersInfo where
  members : Finset Nat
  pfx : Pfx
  version : Nat
deriving DecidableEq

/-- Modelled from the spec: the accumulating event variants the protocol
can agree on, as a closed sum type (`AccumulatingEvent` of the `chain`
module, whose body is not part of the excerpt). Only the payload parts the
modelled transitions inspect are carried. -/
inductive AccumulatingEvent where
  | online (peer : Nat) (age : Nat)
  | offline (peer : Nat)
  | sectionInfo (info : EldersInfo) (section_key : Nat)
  | startDkg (participants : Finset Nat)
deriving DecidableEq

/-- Modelled from the spec: the membership state a node's Chain keeps — the
set of current section members (`our_members`) and the current elder-set
snapshot. -/
structure SectionState where
  our_members : Finset Nat
  elders_info : EldersInfo
deriving DecidableEq

/-- Modelled from the spec: applying one accumulated event to the Chain's
membership state. `Online` adds a member, `Offline` removes one, an
accumulated `SectionInfo` installs the new elder-set snapshot, and
`StartDkg` only launches the DKG sub-protocol (no membership change). -/
def apply_event (s : SectionState) (e : AccumulatingEvent) : SectionState :=
  match e with
  | .online peer _ => { s with our_members := insert peer s.our_members }
  | .offline peer => { s with our_members := s.our_members.erase peer }
  | .sectionInfo info _ => { s with elders_info := info }
  | .startDkg _ => s

/-- Modelled from the spec: the unconsensused-event drain re-votes the
agreement engine's pending observations after an elder transition; it is
agreement-engine bookkeeping and changes no membership state. -/
def drain_unconsensused (s : SectionState) : SectionState := s

/-- Whether `peer` is a member of our section. -/
def is_peer_our_member (s : SectionState) (peer : Nat) : Prop :=
  peer ∈ s.our_members

/-- Whether `peer` is an elder of our section. -/
def is_peer_our_elder (s : SectionState) (peer : Nat) : Prop :=
  peer ∈ s.elders_info.members

instance (s : SectionState) (peer : Nat) : Decidable (is_peer_our_member s peer) := by
  unfold is_peer_our_member
  infer_instance

instance (s : SectionState) (peer : Nat) : Decidable (is_peer_our_elder s peer) := by
  unfold is_peer_our_elder
  infer_instance

/-- A signed relocation ticket; the bootstrapping stage only reads its
destination name (`SignedRelocateDetails::destination`). -/
structure SignedRelocateDetails where
  destination : XorName
deriving DecidableEq

/-- The relocation payload built by `RelocatePayload::new(details,
new_public_id, old_full_id)`; modelled by the data it binds together (the
signing it performs is outside the modelled operations). -/
structure RelocatePayload where
  details : SignedRelocateDetails
  new_name : XorName
  old_name : XorName
deriving DecidableEq

/-- A network socket address, modelled as an opaque id. -/
abbrev SocketAddr : Type := Nat

/-- The message variants the bootstrapping stage emits. -/
inductive Variant where
  | bootstrapRequest (destination_name : XorName)
deriving DecidableEq

/-- The side effects the bootstrapping stage can perform, made explicit:
sending a direct message over the network, or scheduling a timer. -/
inductive Effect where
  | sendDirectMessage (dst : SocketAddr) (msg : Variant)
  | scheduleTimeout (duration : Nat)
deriving DecidableEq

/-- Whether an effect schedules a timer. -/
def Effect.isScheduleTimeout : Effect → Bool
  | .scheduleTimeout _ => true
  | _ => false

/-- Time after which bootstrap is cancelled (and possibly retried):
`BOOTSTRAP_TIMEOUT = Duration::from_secs(20)`, in seconds. -/
def BOOTSTRAP_TIMEOUT : Nat := 20

/-- The bootstrapping stage's state: the peers we sent a
`BootstrapRequest` to, the optional relocation ticket, and our full id
(modelled by its public name, the only part the stage's logic reads). -/
structure Bootstrapping where
  pending_requests : Finset SocketAddr
  relocate_details : Option SignedRelocateDetails
  full_id : XorName
deriving DecidableEq

/-- A bootstrap response: `Join` carries the target section's `EldersInfo`
and section key, `Rebootstrap` a list of replacement contacts. -/
inductive BootstrapResponse where
  | join (elders_info : EldersInfo) (section_key : Nat)
  | rebootstrap (new_conn_infos : List SocketAddr)
deriving DecidableEq

/-- The data `handle_bootstrap_response` returns on a successful join. -/
structure JoinParams where
  elders_info : EldersInfo
  section_key : Nat
  relocate_payload : Option RelocatePayload
deriving DecidableEq

/-- The routing error type, opaque at this interface. -/
inductive RoutingError where
  | err
deriving DecidableEq

/-- `Bootstrapping::send_bootstrap_request`: sends `BootstrapRequest` with
the relocation ticket's destination when one is held, else our own public
name. The source's timer scheduling (`core.timer.schedule(BOOTSTRAP_TIMEOUT)`)
is commented out, so no timeout effect is produced and no state changes. -/
def send_bootstrap_request (s : Bootstrapping) (dst : SocketAddr) :
    Bootstrapping × List Effect :=
  let xorname := match s.relocate_details with
    | some details => details.destination
    | none => s.full_id
  (s, [Effect.sendDirectMessage dst (Variant.bootstrapRequest xorname)])

/-- `Bootstrapping::reconnect_to_new_section`: sends a fresh
`BootstrapRequest` to each new contact. The source's drain of
`pending_requests` is commented out (`TODO`), so the pending set is left
untouched. -/
def reconnect_to_new_section (s : Bootstrapping) (new_conn_infos : List SocketAddr) :
    Bootstrapping × List Effect :=
  new_conn_infos.foldl
    (fun acc conn_info =>
      let step := send_bootstrap_request acc.1 conn_info
      (step.1, acc.2 ++ step.2))
    (s, [])

/-- `Bootstrapping::join_section`: takes the relocation ticket, computes the
destination (ticket destination, else own name), builds the name prefix of
`elders_info.prefix.bit_count() + 3` bits rooted at the destination, and if
the current name does not match it adopts a fresh identity inside that
prefix's range. `FullId::within_range` is modelled from the spec by the
oracle `pick` (identity regeneration repeated until the prefix-membership
predicate holds, hence a name inside the prefix's range). Returns the
relocate payload when a ticket was held. -/
def join_section (pick : Pfx → XorName) (s : Bootstrapping) (elders_info : EldersInfo) :
    Bootstrapping × Option RelocatePayload :=
  let relocate_details := s.relocate_details
  let s1 : Bootstrapping := { s with relocate_details := none }
  let destination := match relocate_details with
    | some details => details.destination
    | none => s1.full_id
  let old_full_id := s1.full_id
  let extra_split_count := 3
  let name_pfx : Pfx := ⟨elders_info.pfx.bit_count + extra_split_count, destination⟩
  let s2 : Bootstrapping :=
    if !(Pfx.matches name_pfx s1.full_id) then { s1 with full_id := pick name_pfx } else s1
  match relocate_details with
  | some details => (s2, some ⟨details, s2.full_id, old_full_id⟩)
  | none => (s2, none)

/-- `Bootstrapping::handle_bootstrap_response`: responses from peers we
never sent a `BootstrapRequest` to are ignored; `Join` runs `join_section`
and returns the join parameters; `Rebootstrap` reconnects to the new
contacts. -/
def handle_bootstrap_response (pick : Pfx → XorName) (s : Bootstrapping)
    (sender : SocketAddr) (response : BootstrapResponse) :
    Bootstrapping × List Effect × Except RoutingError (Option JoinParams) :=
  if sender ∉ s.pending_requests then
    (s, [], Except.ok none)
  else
    match response with
    | .join elders_info section_key =>
        let res := join_section pick s elders_info
        (res.1, [], Except.ok (some ⟨elders_info, section_key, res.2⟩))
    | .rebootstrap new_conn_infos =>
        let res := reconnect_to_new_section s new_conn_infos
        (res.1, res.2, Except.ok none)

/-- An identity-regeneration oracle that returns the prefix's own name,
which always lies inside the prefix's range. -/
def pickName : Pfx → XorName := fun q => q.name

/-- A bootstrapping state with one pending request (to contact 0), used to
evaluate the `Rebootstrap` handling. -/
def rebootstrapProbeState : Bootstrapping := ⟨{0}, none, []⟩

/-- Modelled from the spec: the hard-coded default elder-set size
`ELDER_SIZE` (a crate-root constant not part of the excerpt; the spec's
quorum scenario fixes it at 7). -/
def ELDER_SIZE : Nat := 7

/-- Modelled from the spec: the hard-coded default safe section size
`SAFE_SECTION_SIZE` (a crate-root constant not part of the excerpt; the
spec requires a positive integer and no claim depends on the exact
value). -/
def SAFE_SECTION_SIZE : Nat := 100

/-- The environment configuration `envy` deserializes: each field is
present or absent independently. -/
structure Environment where
  elder_size : Option Nat
  section_size : Option Nat
deriving DecidableEq

/-- Network parameters: number of elders, safe section size. -/
structure NetworkParams where
  elder_size : Nat
  safe_section_size : Nat
deriving DecidableEq

/-- The error reading the environment configuration may produce, opaque at
this interface. -/
inductive EnvError where
  | failure
deriving DecidableEq

/-- `NetworkParams::default`: reads the environment configuration; on
success each parameter is the environment value when present, else the
hard-coded default; on failure both parameters are the hard-coded
defaults. -/
def NetworkParams.default (env : Except EnvError Environment) : NetworkParams :=
  match env with
  | .ok details =>
      ⟨details.elder_size.getD ELDER_SIZE, details.section_size.getD SAFE_SECTION_SIZE⟩
  | .error _ => ⟨ELDER_SIZE, SAFE_SECTION_SIZE⟩

/-- A bls public key set, opaque at this interface. -/
abbrev PublicKeySet : Type := Nat

/-- The age counter of one member, opaque at this interface. -/
abbrev AgeCounter : Type := Nat

/-- A node's public id, modelled by an opaque id. -/
abbrev PublicId : Type := Nat

/-- The genesis snapshot a new member receives to seed its local Chain and
agreement-engine state, with the fields of the source structure in
`src/chain/mod.rs`. -/
structure GenesisPfxInfo where
  first_info : EldersInfo
  first_bls_keys : PublicKeySet
  first_state_serialized : List Nat
  first_ages : List (PublicId × AgeCounter)
  latest_info : EldersInfo
  parsec_version : Nat
deriving DecidableEq

/-- An empty elder-set snapshot used as a concrete probe value. -/
def genInfoZero : EldersInfo := ⟨∅, ⟨0, []⟩, 0⟩

/-- A concrete genesis snapshot. -/
def genA : GenesisPfxInfo := ⟨genInfoZero, 0, [], [], genInfoZero, 0⟩

/-- A genesis snapshot agreeing with `genA` on everything except
`first_state_serialized`. -/
def genB : GenesisPfxInfo := ⟨genInfoZero, 0, [7], [], genInfoZero, 0⟩

/-- A CBOR stream, modelled at token level: a tag read back as an unsigned
64-bit value, or a byte-string payload. -/
inductive CborToken where
  | u64 (value : Nat)
  | bytes (payload : List Nat)
deriving DecidableEq

/-- The fixed-width node name carried by `GetGroupKey`, modelled as its
byte string. -/
abbrev NameType : Type := List Nat

/-- The `GetGroupKey` message: a single target id. -/
structure GetGroupKey where
  target_id : NameType
deriving DecidableEq

/-- `Encodable for GetGroupKey`: encodes the CBOR tag `5483_001` followed
by the target id (`CborTagEncode::new(5483_001, &self.target_id)`). -/
def GetGroupKey.encode (g : GetGroupKey) : List CborToken :=
  [CborToken.u64 5483001, CborToken.bytes g.target_id]

/-- `Decodable for GetGroupKey`: reads a `u64` (the tag, whose value is
discarded), then decodes the target id; fails on an ill-formed stream. -/
def GetGroupKey.decode (stream : List CborToken) : Option GetGroupKey :=
  match stream with
  | CborToken.u64 _ :: CborToken.bytes payload :: _ => some ⟨payload⟩
  | _ => none

end SnRouting

namespace SnRouting

/-- C1: for every elder-set size `n`, `quorum_count n` is the smallest
integer strictly greater than `2n/3`; with 7 elders the quorum is 5, four
distinct votes for one event do not accumulate, a fifth distinct vote makes
accumulation fire with a 5-entry proof, and accumulation fires exactly once
(a further poll returns nothing). -/
theorem quorum_is_least_supermajority_and_scenario_a :
    (∀ n : Nat, 2 * n < 3 * quorum_count n ∧
      ∀ m : Nat, 2 * n < 3 * m → quorum_count n ≤ m) ∧
    quorum_count 7 = 5 ∧
    (EventAccumulator.try_accumulate 7 accFour).1 = none ∧
    (EventAccumulator.try_accumulate 7 accFive).1 = some accFive.proof ∧
    accFive.proof.card = 5 ∧
    (EventAccumulator.try_accumulate 7
      (EventAccumulator.try_accumulate 7 accFive).2).1 = none := by
  refine ⟨?_, by decide, by decide, by decide, by decide, by decide⟩
  intro n
  have hdm : 3 * (2 * n / 3) + 2 * n % 3 = 2 * n := Nat.div_add_mod (2 * n) 3
  have hlt : 2 * n % 3 < 3 := Nat.mod_lt _ (by omega)
  constructor
  · unfold quorum_count
    omega
  · intro m hm
    unfold quorum_count
    omega

/-- C2: accumulating `Online(candidate)` then `StartDkg` makes the
candidate a section member but not yet an elder; only after the
`SectionInfo` accumulation (with the DKG-derived key) and the
unconsensused-event drain is the candidate an elder of the resulting
`EldersInfo`. -/
theorem online_startdkg_sectioninfo_elder_transition
    (s0 : SectionState) (candidate age section_key : Nat)
    (participants : Finset Nat) (new_info : EldersInfo)
    (hnotelder : candidate ∉ s0.elders_info.members)
    (hnew : candidate ∈ new_info.members) :
    let s1 := apply_event s0 (.online candidate age)
    let s2 := apply_event s1 (.startDkg participants)
    let s3 := drain_unconsensused (apply_event s2 (.sectionInfo new_info section_key))
    (is_peer_our_member s2 candidate ∧ ¬ is_peer_our_elder s2 candidate) ∧
      (is_peer_our_elder s3 candidate ∧ s3.elders_info = new_info) := by
  refine ⟨⟨?_, ?_⟩, ?_, rfl⟩
  · exact Finset.mem_insert_self _ _
  · exact hnotelder
  · exact hnew

/-- Witness for C2: a concrete run with one incumbent elder 0 and candidate
7, promoted by the four-step sequence. -/
theorem online_startdkg_sectioninfo_elder_transition_witness :
    let info0 : EldersInfo := ⟨{0}, ⟨0, []⟩, 0⟩
    let new_info : EldersInfo := ⟨{0, 7}, ⟨0, []⟩, 1⟩
    let s0 : SectionState := ⟨{0}, info0⟩
    let s1 := apply_event s0 (.online 7 4)
    let s2 := apply_event s1 (.startDkg {0, 7})
    let s3 := drain_unconsensused (apply_event s2 (.sectionInfo new_info 11))
    (is_peer_our_member s2 7 ∧ ¬ is_peer_our_elder s2 7) ∧
      (is_peer_our_elder s3 7 ∧ s3.elders_info = new_info) :=
  online_startdkg_sectioninfo_elder_transition ⟨{0}, ⟨{0}, ⟨0, []⟩, 0⟩⟩ 7 4 11
    {0, 7} ⟨{0, 7}, ⟨0, []⟩, 1⟩ (by decide) (by decide)

/-- The prefix's own name matches the prefix. -/
theorem pfx_matches_own_name (q : Pfx) : Pfx.matches q q.name = true := by
  unfold Pfx.matches
  simp

/-- C3: a joining node holding a relocation ticket that processes a
`Join` response whose `EldersInfo` prefix has `N` bits ends `join_section`
with an identity name matching the `N + 3`-bit prefix rooted at the
ticket's destination, provided identity regeneration yields a name inside
that prefix's range. -/
theorem join_section_relocated_name_matches_extended_prefix
    (pick : Pfx → XorName) (s : Bootstrapping) (elders_info : EldersInfo)
    (d : SignedRelocateDetails)
    (hrel : s.relocate_details = some d)
    (hpick : Pfx.matches ⟨elders_info.pfx.bit_count + 3, d.destination⟩
      (pick ⟨elders_info.pfx.bit_count + 3, d.destination⟩) = true) :
    Pfx.matches ⟨elders_info.pfx.bit_count + 3, d.destination⟩
      (join_section pick s elders_info).1.full_id = true := by
  unfold join_section
  simp only [hrel]
  by_cases h : Pfx.matches ⟨elders_info.pfx.bit_count + 3, d.destination⟩ s.full_id = true
  · simp [h]
  · simp only [Bool.not_eq_true] at h
    simp [h, hpick]

/-- Witness for C3: a ticket destined at name `[true]`, an elders prefix of
1 bit, and regeneration by `pickName`. -/
theorem join_section_relocated_name_matches_extended_prefix_witness :
    Pfx.matches ⟨1 + 3, [true]⟩
      (join_section pickName ⟨∅, some ⟨[true]⟩, []⟩ ⟨∅, ⟨1, [false]⟩, 0⟩).1.full_id = true :=
  join_section_relocated_name_matches_extended_prefix pickName
    ⟨∅, some ⟨[true]⟩, []⟩ ⟨∅, ⟨1, [false]⟩, 0⟩ ⟨[true]⟩ rfl (by decide)

/-- C4: a bootstrap response from a sender we never sent a request to is
ignored: no error, `Ok(None)`, no effects, and the whole `Bootstrapping`
state (every field) unchanged. -/
theorem handle_bootstrap_response_ignores_unknown_sender
    (pick : Pfx → XorName) (s : Bootstrapping) (sender : SocketAddr)
    (response : BootstrapResponse)
    (h : sender ∉ s.pending_requests) :
    handle_bootstrap_response pick s sender response = (s, [], Except.ok none) := by
  unfold handle_bootstrap_response
  simp [h]

/-- Witness for C4: a stray `Rebootstrap` from sender 3 while no request is
pending. -/
theorem handle_bootstrap_response_ignores_unknown_sender_witness :
    handle_bootstrap_response pickName ⟨{1, 2}, none, []⟩ 3 (.rebootstrap [9]) =
      (⟨{1, 2}, none, []⟩, [], Except.ok none) :=
  handle_bootstrap_response_ignores_unknown_sender pickName ⟨{1, 2}, none, []⟩ 3
    (.rebootstrap [9]) (by decide)

/-- C5: evaluating `handle_bootstrap_response` on
`Rebootstrap([1, 2])` from the pending sender 0: a fresh `BootstrapRequest`
is sent to each listed contact and `Ok(None)` is returned, but
`pending_requests` is NOT cleared — it still contains 0 afterwards, because
the drain in `reconnect_to_new_section` is commented out in the source. -/
theorem rebootstrap_does_not_clear_pending_requests :
    (handle_bootstrap_response pickName rebootstrapProbeState 0
        (.rebootstrap [1, 2])).1.pending_requests = {0} ∧
    (handle_bootstrap_response pickName rebootstrapProbeState 0
        (.rebootstrap [1, 2])).2.1 =
      [Effect.sendDirectMessage 1 (Variant.bootstrapRequest []),
       Effect.sendDirectMessage 2 (Variant.bootstrapRequest [])] ∧
    (handle_bootstrap_response pickName rebootstrapProbeState 0
        (.rebootstrap [1, 2])).2.2 = Except.ok none :=
  ⟨by decide, by decide, by rfl⟩

/-- C6: `send_bootstrap_request` sends exactly one `BootstrapRequest` whose
destination name is the relocation ticket's destination when a ticket is
held, and the node's own public name otherwise. -/
theorem send_bootstrap_request_destination_name :
    ∀ (s : Bootstrapping) (dst : SocketAddr),
      (∀ d : SignedRelocateDetails, s.relocate_details = some d →
        (send_bootstrap_request s dst).2 =
          [Effect.sendDirectMessage dst (Variant.bootstrapRequest d.destination)]) ∧
      (s.relocate_details = none →
        (send_bootstrap_request s dst).2 =
          [Effect.sendDirectMessage dst (Variant.bootstrapRequest s.full_id)]) := by
  intro s dst
  constructor
  · intro d hd
    simp [send_bootstrap_request, hd]
  · intro h
    simp [send_bootstrap_request, h]

/-- Witness for C6: a node with a ticket destined at `[true]` sends its
request with destination name `[true]`. -/
theorem send_bootstrap_request_destination_name_witness :
    (send_bootstrap_request ⟨∅, some ⟨[true]⟩, [false]⟩ 4).2 =
      [Effect.sendDirectMessage 4 (Variant.bootstrapRequest [true])] :=
  (send_bootstrap_request_destination_name ⟨∅, some ⟨[true]⟩, [false]⟩ 4).1 ⟨[true]⟩ rfl

/-- C8: the per-attempt bootstrap timeout constant is 20 time-units, but
`send_bootstrap_request` never schedules it — the timer scheduling is
commented out in the source, so no effect of a bootstrap attempt is a
timeout and the state keeps no timer token; the wait is therefore not
bounded by the constant. -/
theorem bootstrap_timeout_constant_never_scheduled :
    BOOTSTRAP_TIMEOUT = 20 ∧
    ∀ (s : Bootstrapping) (dst : SocketAddr),
      ((send_bootstrap_request s dst).2.all fun e => !e.isScheduleTimeout) = true ∧
      (send_bootstrap_request s dst).1 = s := by
  refine ⟨rfl, ?_⟩
  intro s dst
  cases hs : s.relocate_details <;>
    simp [send_bootstrap_request, Effect.isScheduleTimeout, hs]

/-- Counterexample to C7: an environment configuration supplying
`elder_size = 0` flows through `NetworkParams::default` unchecked, so the
resulting `elder_size` is 0 — not a positive integer. -/
theorem network_params_default_env_zero_not_positive :
    (NetworkParams.default (Except.ok ⟨some 0, some 5⟩)).elder_size = 0 ∧
    ¬ 0 < (NetworkParams.default (Except.ok ⟨some 0, some 5⟩)).elder_size := by
  decide

/-- C7 (amended): `NetworkParams::default` takes each parameter from the
environment configuration when the corresponding variable is present and
falls back to the hard-coded default for each absent value or when reading
the environment fails; the defaults are positive, and both resulting
values are positive whenever every environment-supplied value present is
positive. -/
theorem network_params_default_selection_and_positivity :
    (∀ details : Environment,
      NetworkParams.default (Except.ok details) =
        ⟨details.elder_size.getD ELDER_SIZE, details.section_size.getD SAFE_SECTION_SIZE⟩) ∧
    (∀ e : EnvError,
      NetworkParams.default (Except.error e) = ⟨ELDER_SIZE, SAFE_SECTION_SIZE⟩) ∧
    0 < ELDER_SIZE ∧ 0 < SAFE_SECTION_SIZE ∧
    (∀ env : Except EnvError Environment,
      (∀ d v, env = Except.ok d → d.elder_size = some v → 0 < v) →
      (∀ d v, env = Except.ok d → d.section_size = some v → 0 < v) →
      0 < (NetworkParams.default env).elder_size ∧
      0 < (NetworkParams.default env).safe_section_size) := by
  refine ⟨fun details => rfl, fun e => rfl, by decide, by decide, ?_⟩
  intro env h1 h2
  cases env with
  | error e =>
    exact ⟨by simp [NetworkParams.default, ELDER_SIZE],
      by simp [NetworkParams.default, SAFE_SECTION_SIZE]⟩
  | ok d =>
    constructor
    · cases hd : d.elder_size with
      | none => simp [NetworkParams.default, hd, ELDER_SIZE]
      | some v => simpa [NetworkParams.default, hd] using h1 d v rfl hd
    · cases hd : d.section_size with
      | none => simp [NetworkParams.default, hd, SAFE_SECTION_SIZE]
      | some v => simpa [NetworkParams.default, hd] using h2 d v rfl hd

/-- Counterexample to C9: two `GenesisPfxInfo` values agreeing on
`first_info`, `first_bls_keys`, `first_ages`, `latest_info` and
`parsec_version` are nevertheless different — the structure carries the
further field `first_state_serialized`, on which they differ. -/
theorem genesis_pfx_info_not_determined_by_five_fields :
    genA.first_info = genB.first_info ∧
    genA.first_bls_keys = genB.first_bls_keys ∧
    genA.first_ages = genB.first_ages ∧
    genA.latest_info = genB.latest_info ∧
    genA.parsec_version = genB.parsec_version ∧
    genA ≠ genB := by
  decide

/-- C9 (amended): `GenesisPfxInfo` consists of exactly the fields
`first_info`, `first_bls_keys`, `first_state_serialized`, `first_ages`,
`latest_info` and `parsec_version`: two values agreeing on these six
fields are equal. -/
theorem genesis_pfx_info_determined_by_six_fields
    (g1 g2 : GenesisPfxInfo)
    (h1 : g1.first_info = g2.first_info)
    (h2 : g1.first_bls_keys = g2.first_bls_keys)
    (h3 : g1.first_state_serialized = g2.first_state_serialized)
    (h4 : g1.first_ages = g2.first_ages)
    (h5 : g1.latest_info = g2.latest_info)
    (h6 : g1.parsec_version = g2.parsec_version) :
    g1 = g2 := by
  cases g1
  cases g2
  simp_all

/-- Witness for C9 (amended): applied to `genA` against itself. -/
theorem genesis_pfx_info_determined_by_six_fields_witness : genA = genA :=
  genesis_pfx_info_determined_by_six_fields genA genA rfl rfl rfl rfl rfl rfl

/-- C10: decoding the CBOR encoding of any `GetGroupKey` yields the
original value (the tag `5483_001` written by `encode` is read back and
discarded by `decode`, which then restores the target id). -/
theorem get_group_key_serialisation :
    ∀ g : GetGroupKey, GetGroupKey.decode (GetGroupKey.encode g) = some g := by
  intro g
  rfl

end SnRouting
